import Mathlib

/-!
Shallow embedding of `src/shmexport.c` (shared-memory export from the gpsd
daemon): the segment manager (`recreate_segment`, `shm_acquire`,
`shm_release`) and the lock-free publisher (`shm_update`).

Kernel responses to the System V IPC calls are modelled by an explicit
`Platform` oracle, and each embedded function additionally returns the list
of system actions / shared-memory operations it performed in program order,
so that ordering and frame properties can be stated.  `errno` is threaded
explicitly: a failing call sets it, a successful call leaves it unchanged.
-/

namespace Shmexport

/-- System V IPC calls that `recreate_segment` may issue, in program order.
`shmgetCreate size` is `shmget(shmkey, size, mode | IPC_CREAT)`,
`shmgetOpen` is `shmget(shmkey, 0, 0)`, `shmctlStat` is
`shmctl(shmid, IPC_STAT, &segment)` and `shmctlRmid` is
`shmctl(shmid, IPC_RMID, NULL)`. -/
inductive SysAction where
  | shmgetCreate (size : Nat)
  | shmgetOpen
  | shmctlStat
  | shmctlRmid
  deriving DecidableEq

/-- Oracle for the kernel's responses to the calls `recreate_segment`
may issue.  `none` (or `false` for `rmidOk`) means the call fails and sets
`errno` to the accompanying field; `some v` means it succeeds with result
`v`.  `stat` returns the pair `(shm_segsz, shm_nattch)` on success. -/
structure Platform where
  create1 : Option Nat
  errnoCreate1 : Nat
  open0 : Option Nat
  errnoOpen : Nat
  stat : Option (Nat × Nat)
  errnoStat : Nat
  rmidOk : Bool
  errnoRmid : Nat
  create2 : Option Nat
  errnoCreate2 : Nat
  deriving DecidableEq

/-- Result of `recreate_segment`: the trace of issued syscalls, the returned
shmid (`-1` on failure) and the value of `errno` on return. -/
structure RecreateResult where
  trace : List SysAction
  result : Int
  errno : Nat
  deriving DecidableEq

/-- Embedding of `recreate_segment` (src/shmexport.c:43-82).  The C function
takes `shmkey`, `context` (unused by its body) and `mode`; these are
absorbed into the `Platform` oracle, which fixes the kernel's response to
each syscall on this key.  `errno0` is the value of `errno` on entry. -/
def recreate_segment (p : Platform) (desired_size : Nat) (errno0 : Nat) :
    RecreateResult :=
  match p.create1 with
  | some shmid => ⟨[.shmgetCreate desired_size], shmid, errno0⟩
  | none =>
    -- saved_errno = errno (set by the failed shmget)
    let saved := p.errnoCreate1
    match p.open0 with
    | none =>
      -- No existing segment. Unhandled error: errno = saved_errno
      ⟨[.shmgetCreate desired_size, .shmgetOpen], -1, saved⟩
    | some _ =>
      match p.stat with
      | none =>
        -- Failed to stat segment. Unhandled error: errno = saved_errno
        ⟨[.shmgetCreate desired_size, .shmgetOpen, .shmctlStat], -1, saved⟩
      | some (segsz, nattch) =>
        if desired_size ≤ segsz then
          -- Segment is already big enough. Unhandled error.
          -- errno untouched since the failed first shmget, hence still saved.
          ⟨[.shmgetCreate desired_size, .shmgetOpen, .shmctlStat], -1, saved⟩
        else if 0 < nattch then
          -- Other process(es) attached. Cannot resize.
          ⟨[.shmgetCreate desired_size, .shmgetOpen, .shmctlStat], -1, saved⟩
        else if p.rmidOk then
          -- deleted; retry creation at desired_size, propagating its outcome
          match p.create2 with
          | some shmid2 =>
            ⟨[.shmgetCreate desired_size, .shmgetOpen, .shmctlStat,
              .shmctlRmid, .shmgetCreate desired_size], shmid2, saved⟩
          | none =>
            ⟨[.shmgetCreate desired_size, .shmgetOpen, .shmctlStat,
              .shmctlRmid, .shmgetCreate desired_size], -1, p.errnoCreate2⟩
        else
          -- Cannot delete existing segment: errno = saved_errno
          ⟨[.shmgetCreate desired_size, .shmgetOpen, .shmctlStat,
            .shmctlRmid], -1, saved⟩

/-- The exported snapshot `struct gps_data_t`: the descriptor field
`gps_fd` that `shm_update` patches, plus the rest of the structure, which
`shmexport.c` treats as opaque bytes (type parameter `α`). -/
structure gps_data_t (α : Type) where
  gps_fd : Int
  rest : α
  deriving DecidableEq

/-- Modelled from the spec: `SHM_PSEUDO_FD` comes from `libgps.h`, which is
not part of this source; the spec describes it only as "a fixed marker"
("sentinel descriptor value").  Its concrete value is immaterial to every
claim, which mention it only by name. -/
def SHM_PSEUDO_FD : Int := -1

/-- The record living inside the shared segment, `struct shmexport_t`:
leading bookend, payload, trailing bookend. -/
structure shmexport_t (α : Type) where
  bookend1 : Nat
  gpsdata : gps_data_t α
  bookend2 : Nat
  deriving DecidableEq

/-- The export context: the fields of `struct gps_context_t` that
`shmexport.c` touches.  `shmexport = none` models a NULL region pointer;
`some r` models a non-null pointer to a mapped region holding record `r`. -/
structure gps_context_t (α : Type) where
  shmexport : Option (shmexport_t α)
  shmid : Int
  deriving DecidableEq

/-- Number of values of the C `int` used for the static `tick` counter;
ticks are modelled as the 32-bit pattern of the counter, a `Nat < 2^32`. -/
def tickModulus : Nat := 2 ^ 32

/-- Shared-memory operations performed by one `shm_update` cycle, in
program order: bookend writes, the whole-snapshot copy, the descriptor
patch, and `memory_barrier()` fences. -/
inductive ShmOp (α : Type) where
  | writeBookend2 (t : Nat)
  | fence
  | writePayload (d : gps_data_t α)
  | patchFd (v : Int)
  | writeBookend1 (t : Nat)
  deriving DecidableEq

/-- Embedding of `shm_update` (src/shmexport.c:137-173).  `tick` is the
static counter (its 32-bit pattern); the function returns the new counter,
the new context, and the trace of shared-memory operations performed. -/
def shm_update (tick : Nat) (ctx : gps_context_t α) (gpsdata : gps_data_t α) :
    Nat × gps_context_t α × List (ShmOp α) :=
  match ctx.shmexport with
  | none => (tick, ctx, [])
  | some shared =>
    let t := (tick + 1) % tickModulus
    let shared1 := { shared with bookend2 := t }
    let shared2 := { shared1 with gpsdata := gpsdata }
    let shared3 :=
      { shared2 with gpsdata := { shared2.gpsdata with gps_fd := SHM_PSEUDO_FD } }
    let shared4 := { shared3 with bookend1 := t }
    (t, { ctx with shmexport := some shared4 },
     [.writeBookend2 t, .fence, .writePayload gpsdata, .fence,
      .patchFd SHM_PSEUDO_FD, .fence, .writeBookend1 t])

/-- The publish-cycle operation sequence asserted by the spec (steps 2-8 of
`publish`): trailing bookend, fence, payload copy, descriptor patch, fence,
leading bookend, fence.  Stated from the spec's words, to be compared with
the trace `shm_update` actually produces. -/
def specPublishTrace (t : Nat) (d : gps_data_t α) : List (ShmOp α) :=
  [.writeBookend2 t, .fence, .writePayload d,
   .patchFd SHM_PSEUDO_FD, .fence, .writeBookend1 t, .fence]

/-- Operations performed by `shm_release`: marking the segment for
destruction (`shmctl(shmid, IPC_RMID, NULL)`) and detaching the mapping
(`shmdt`). -/
inductive RelOp where
  | rmidMark (shmid : Int)
  | detach
  deriving DecidableEq

/-- Embedding of `shm_release` (src/shmexport.c:119-135).  A failing
destruction-mark only logs a warning, so the action trace and the state are
the same either way; the context fields are never written. -/
def shm_release (ctx : gps_context_t α) : gps_context_t α × List RelOp :=
  match ctx.shmexport with
  | none => (ctx, [])
  | some _ => (ctx, [.rmidMark ctx.shmid, .detach])

/-- Embedding of `shm_acquire` (src/shmexport.c:84-117).  `p` fixes the
kernel responses inside `recreate_segment`, `segment_size` is
`sizeof(struct shmexport_t)`, and `att` is the result of `shmat`: `none`
models the failure sentinel `(void *)-1`, `some reg` a successful
attachment whose region holds record `reg`.  Returns the updated context
and the C function's boolean result. -/
def shm_acquire (p : Platform) (segment_size : Nat) (att : Option (shmexport_t α))
    (ctx : gps_context_t α) (errno0 : Nat) : gps_context_t α × Bool :=
  let r := recreate_segment p segment_size errno0
  if r.result = -1 then
    (ctx, false)
  else
    match att with
    | none => ({ ctx with shmexport := none }, false)
    | some reg => ({ shmexport := some reg, shmid := r.result }, true)

/-- C1 counterexample: on a concrete non-null context, the operation
sequence `shm_update` performs is not the spec's claimed sequence
(trailing write, fence, copy, patch, fence, leading write, fence): the code
fences between the copy and the patch and performs no fence after the
leading-bookend write. -/
theorem shm_update_spec_sequence_refuted :
    (shm_update 0 ⟨some ⟨0, ⟨5, (42 : Nat)⟩, 0⟩, 3⟩ ⟨7, 99⟩).2.2 ≠
      specPublishTrace ((0 + 1) % tickModulus) ⟨7, 99⟩ := by
  decide

/-- C1 (amended): for every publish call on a context whose region is
non-null, the sequence of shared-memory operations performed is exactly:
write the trailing bookend with the new tick, fence, copy the whole
snapshot into the payload, fence, patch the payload's descriptor field to
the sentinel value, fence, write the leading bookend with the same tick —
fences sit at the trailing-write/payload-write and patch/leading-write
boundaries and between the copy and the patch, and no fence follows the
leading-bookend write. -/
theorem shm_update_op_sequence {α : Type} (tick : Nat) (ctx : gps_context_t α)
    (d : gps_data_t α) (shared : shmexport_t α)
    (hr : ctx.shmexport = some shared) :
    (shm_update tick ctx d).2.2 =
      [.writeBookend2 ((tick + 1) % tickModulus), .fence, .writePayload d,
       .fence, .patchFd SHM_PSEUDO_FD, .fence,
       .writeBookend1 ((tick + 1) % tickModulus)] := by
  simp [shm_update, hr]

/-- C1 witness: the amended operation sequence at a concrete input. -/
theorem shm_update_op_sequence_witness :
    (shm_update 0 ⟨some ⟨0, ⟨5, (42 : Nat)⟩, 0⟩, 3⟩ ⟨7, 99⟩).2.2 =
      [.writeBookend2 ((0 + 1) % tickModulus), .fence, .writePayload ⟨7, 99⟩,
       .fence, .patchFd SHM_PSEUDO_FD, .fence,
       .writeBookend1 ((0 + 1) % tickModulus)] :=
  shm_update_op_sequence 0 ⟨some ⟨0, ⟨5, (42 : Nat)⟩, 0⟩, 3⟩ ⟨7, 99⟩ _ rfl

/-- C2: for every publish call on a context whose region is non-null, after
the call the record in the region has both bookends equal to the new tick
and its payload equals the snapshot passed in except that the descriptor
field holds the sentinel `SHM_PSEUDO_FD`. -/
theorem shm_update_record {α : Type} (tick : Nat) (ctx : gps_context_t α)
    (d : gps_data_t α) (shared : shmexport_t α)
    (hr : ctx.shmexport = some shared) :
    (shm_update tick ctx d).1 = (tick + 1) % tickModulus ∧
    (shm_update tick ctx d).2.1.shmexport =
      some ⟨(tick + 1) % tickModulus, ⟨SHM_PSEUDO_FD, d.rest⟩,
            (tick + 1) % tickModulus⟩ := by
  simp [shm_update, hr]

/-- C2 witness: the record after a concrete publish call. -/
theorem shm_update_record_witness :
    (shm_update 0 ⟨some ⟨0, ⟨5, (42 : Nat)⟩, 0⟩, 3⟩ ⟨7, 99⟩).1 =
      (0 + 1) % tickModulus ∧
    (shm_update 0 ⟨some ⟨0, ⟨5, (42 : Nat)⟩, 0⟩, 3⟩ ⟨7, 99⟩).2.1.shmexport =
      some ⟨(0 + 1) % tickModulus, ⟨SHM_PSEUDO_FD, 99⟩, (0 + 1) % tickModulus⟩ :=
  shm_update_record 0 ⟨some ⟨0, ⟨5, (42 : Nat)⟩, 0⟩, 3⟩ ⟨7, 99⟩ _ rfl

/-- C3: when the initial create-at-`desired_size` attempt fails, a segment
exists at the key, its size is strictly smaller than `desired_size` and its
attachment count is zero, the existing segment is deleted (the kernel
honouring the delete), creation at `desired_size` is retried, and whatever
the retry returns — a valid handle or failure — is the final result. -/
theorem recreate_segment_undersized_free (p : Platform) (d e0 i sz : Nat)
    (h1 : p.create1 = none) (h2 : p.open0 = some i)
    (h3 : p.stat = some (sz, 0)) (h4 : sz < d) (h5 : p.rmidOk = true) :
    (recreate_segment p d e0).trace =
      [.shmgetCreate d, .shmgetOpen, .shmctlStat, .shmctlRmid,
       .shmgetCreate d] ∧
    (recreate_segment p d e0).result = p.create2.elim (-1) (fun j => (j : Int)) ∧
    (p.create2 = none → (recreate_segment p d e0).errno = p.errnoCreate2) := by
  have hsz : ¬ d ≤ sz := by omega
  cases hc : p.create2 <;>
    simp [recreate_segment, h1, h2, h3, h5, hc, hsz]

/-- C3 witness: the delete-and-retry path at a concrete platform. -/
theorem recreate_segment_undersized_free_witness :
    (recreate_segment ⟨none, 22, some 7, 0, some (8, 0), 0, true, 0, some 9, 0⟩
        16 5).trace =
      [.shmgetCreate 16, .shmgetOpen, .shmctlStat, .shmctlRmid,
       .shmgetCreate 16] ∧
    (recreate_segment ⟨none, 22, some 7, 0, some (8, 0), 0, true, 0, some 9, 0⟩
        16 5).result = (some 9).elim (-1) (fun j => (j : Int)) ∧
    ((some 9 : Option Nat) = none →
      (recreate_segment ⟨none, 22, some 7, 0, some (8, 0), 0, true, 0, some 9, 0⟩
        16 5).errno = 0) :=
  recreate_segment_undersized_free _ 16 5 7 8 rfl rfl rfl (by decide) rfl

/-- C4: when the initial create-at-`desired_size` attempt fails and a
segment exists at the key with size strictly smaller than `desired_size`
but with one or more attached processes, the call fails and performs no
destructive action: no delete is issued and the syscall trace stops at the
stat probe. -/
theorem recreate_segment_undersized_busy (p : Platform) (d e0 i sz n : Nat)
    (h1 : p.create1 = none) (h2 : p.open0 = some i)
    (h3 : p.stat = some (sz, n)) (h4 : sz < d) (h5 : 0 < n) :
    (recreate_segment p d e0).result = -1 ∧
    (recreate_segment p d e0).trace =
      [.shmgetCreate d, .shmgetOpen, .shmctlStat] ∧
    SysAction.shmctlRmid ∉ (recreate_segment p d e0).trace := by
  have hsz : ¬ d ≤ sz := by omega
  simp [recreate_segment, h1, h2, h3, hsz, h5]

/-- C4 witness: the busy path at a concrete platform. -/
theorem recreate_segment_undersized_busy_witness :
    (recreate_segment ⟨none, 22, some 7, 0, some (8, 2), 0, true, 0, some 9, 0⟩
        16 5).result = -1 ∧
    (recreate_segment ⟨none, 22, some 7, 0, some (8, 2), 0, true, 0, some 9, 0⟩
        16 5).trace = [.shmgetCreate 16, .shmgetOpen, .shmctlStat] ∧
    SysAction.shmctlRmid ∉
      (recreate_segment ⟨none, 22, some 7, 0, some (8, 2), 0, true, 0, some 9, 0⟩
        16 5).trace :=
  recreate_segment_undersized_busy _ 16 5 7 8 2 rfl rfl rfl (by decide) (by decide)

/-- C5: when the initial create-at-`desired_size` attempt fails and a
segment already exists at the key whose size is at least `desired_size`,
the call fails and neither destroys the segment nor retries creation: the
trace stops at the stat probe, with no delete and no second create. -/
theorem recreate_segment_big_enough (p : Platform) (d e0 i sz n : Nat)
    (h1 : p.create1 = none) (h2 : p.open0 = some i)
    (h3 : p.stat = some (sz, n)) (h4 : d ≤ sz) :
    (recreate_segment p d e0).result = -1 ∧
    (recreate_segment p d e0).trace =
      [.shmgetCreate d, .shmgetOpen, .shmctlStat] ∧
    SysAction.shmctlRmid ∉ (recreate_segment p d e0).trace := by
  simp [recreate_segment, h1, h2, h3, h4]

/-- C5 witness: the already-big-enough path at a concrete platform. -/
theorem recreate_segment_big_enough_witness :
    (recreate_segment ⟨none, 22, some 7, 0, some (32, 0), 0, true, 0, some 9, 0⟩
        16 5).result = -1 ∧
    (recreate_segment ⟨none, 22, some 7, 0, some (32, 0), 0, true, 0, some 9, 0⟩
        16 5).trace = [.shmgetCreate 16, .shmgetOpen, .shmctlStat] ∧
    SysAction.shmctlRmid ∉
      (recreate_segment ⟨none, 22, some 7, 0, some (32, 0), 0, true, 0, some 9, 0⟩
        16 5).trace :=
  recreate_segment_big_enough _ 16 5 7 32 0 rfl rfl rfl (by decide)

/-- C6: every failing `recreate_segment` call that returns without having
completed a successful delete of the undersized segment — no segment
exists, the stat probe fails, the segment is big enough, the segment is
attached, or the delete itself fails — returns with `errno` equal to the
one produced by the initial create attempt, not the errno of a later probe
call. -/
theorem recreate_segment_errno_preserved (p : Platform) (d e0 : Nat)
    (h1 : p.create1 = none)
    (h2 : p.rmidOk = false ∨
          SysAction.shmctlRmid ∉ (recreate_segment p d e0).trace) :
    (recreate_segment p d e0).result = -1 ∧
    (recreate_segment p d e0).errno = p.errnoCreate1 := by
  obtain ⟨c1, e1, o0, eo, st, es, rm, er, c2, e2⟩ := p
  simp only at h1
  subst h1
  cases o0 with
  | none => simp [recreate_segment]
  | some i =>
    cases st with
    | none => simp [recreate_segment]
    | some pr =>
      obtain ⟨sz, n⟩ := pr
      by_cases hsz : d ≤ sz
      · simp [recreate_segment, hsz]
      · by_cases hn : 0 < n
        · simp [recreate_segment, hsz, hn]
        · cases rm with
          | false => simp [recreate_segment, hsz, hn]
          | true =>
            exfalso
            rcases h2 with h2 | h2
            · exact Bool.noConfusion h2
            · cases hc : c2 <;>
                simp [recreate_segment, hsz, hn, hc] at h2

/-- C6 witness: a concrete failing call (no existing segment) returns the
initial create attempt's errno. -/
theorem recreate_segment_errno_preserved_witness :
    (recreate_segment ⟨none, 22, none, 13, none, 0, true, 0, none, 0⟩
        16 5).result = -1 ∧
    (recreate_segment ⟨none, 22, none, 13, none, 0, true, 0, none, 0⟩
        16 5).errno = 22 :=
  recreate_segment_errno_preserved _ 16 5 rfl (Or.inr (by decide))

/-- C7: for consecutive publish calls that find the region non-null, the
bookend-pair written by the first call is `(t1, t1)` and by the second
`(t2, t2)` with `t2 = (t1 + 1) mod 2^32`; absent wraparound the ticks are
strictly increasing and the two bookend-pairs differ. -/
theorem shm_update_consecutive_ticks {α : Type} (tick : Nat)
    (ctx : gps_context_t α) (d1 d2 : gps_data_t α) (shared : shmexport_t α)
    (hr : ctx.shmexport = some shared) :
    (shm_update tick ctx d1).2.1.shmexport =
      some ⟨(shm_update tick ctx d1).1, ⟨SHM_PSEUDO_FD, d1.rest⟩,
            (shm_update tick ctx d1).1⟩ ∧
    (shm_update (shm_update tick ctx d1).1 (shm_update tick ctx d1).2.1 d2).2.1.shmexport =
      some ⟨(shm_update (shm_update tick ctx d1).1 (shm_update tick ctx d1).2.1 d2).1,
            ⟨SHM_PSEUDO_FD, d2.rest⟩,
            (shm_update (shm_update tick ctx d1).1 (shm_update tick ctx d1).2.1 d2).1⟩ ∧
    (shm_update (shm_update tick ctx d1).1 (shm_update tick ctx d1).2.1 d2).1 =
      ((shm_update tick ctx d1).1 + 1) % tickModulus ∧
    ((shm_update tick ctx d1).1 + 1 < tickModulus →
      (shm_update tick ctx d1).1 <
        (shm_update (shm_update tick ctx d1).1 (shm_update tick ctx d1).2.1 d2).1 ∧
      (shm_update (shm_update tick ctx d1).1 (shm_update tick ctx d1).2.1 d2).1 ≠
        (shm_update tick ctx d1).1) := by
  simp only [shm_update, hr]
  refine ⟨trivial, trivial, trivial, fun hlt => ?_⟩
  rw [Nat.mod_eq_of_lt hlt]
  omega

/-- C7 witness: two consecutive publishes at a concrete state. -/
theorem shm_update_consecutive_ticks_witness :
    (shm_update 0 ⟨some ⟨0, ⟨5, (42 : Nat)⟩, 0⟩, 3⟩ ⟨7, 99⟩).2.1.shmexport =
      some ⟨(shm_update 0 ⟨some ⟨0, ⟨5, (42 : Nat)⟩, 0⟩, 3⟩ ⟨7, 99⟩).1,
            ⟨SHM_PSEUDO_FD, 99⟩,
            (shm_update 0 ⟨some ⟨0, ⟨5, (42 : Nat)⟩, 0⟩, 3⟩ ⟨7, 99⟩).1⟩ ∧
    (shm_update (shm_update 0 ⟨some ⟨0, ⟨5, (42 : Nat)⟩, 0⟩, 3⟩ ⟨7, 99⟩).1
        (shm_update 0 ⟨some ⟨0, ⟨5, (42 : Nat)⟩, 0⟩, 3⟩ ⟨7, 99⟩).2.1 ⟨8, 101⟩).2.1.shmexport =
      some ⟨(shm_update (shm_update 0 ⟨some ⟨0, ⟨5, (42 : Nat)⟩, 0⟩, 3⟩ ⟨7, 99⟩).1
               (shm_update 0 ⟨some ⟨0, ⟨5, (42 : Nat)⟩, 0⟩, 3⟩ ⟨7, 99⟩).2.1 ⟨8, 101⟩).1,
            ⟨SHM_PSEUDO_FD, 101⟩,
            (shm_update (shm_update 0 ⟨some ⟨0, ⟨5, (42 : Nat)⟩, 0⟩, 3⟩ ⟨7, 99⟩).1
               (shm_update 0 ⟨some ⟨0, ⟨5, (42 : Nat)⟩, 0⟩, 3⟩ ⟨7, 99⟩).2.1 ⟨8, 101⟩).1⟩ ∧
    (shm_update (shm_update 0 ⟨some ⟨0, ⟨5, (42 : Nat)⟩, 0⟩, 3⟩ ⟨7, 99⟩).1
        (shm_update 0 ⟨some ⟨0, ⟨5, (42 : Nat)⟩, 0⟩, 3⟩ ⟨7, 99⟩).2.1 ⟨8, 101⟩).1 =
      ((shm_update 0 ⟨some ⟨0, ⟨5, (42 : Nat)⟩, 0⟩, 3⟩ ⟨7, 99⟩).1 + 1) % tickModulus ∧
    ((shm_update 0 ⟨some ⟨0, ⟨5, (42 : Nat)⟩, 0⟩, 3⟩ ⟨7, 99⟩).1 + 1 < tickModulus →
      (shm_update 0 ⟨some ⟨0, ⟨5, (42 : Nat)⟩, 0⟩, 3⟩ ⟨7, 99⟩).1 <
        (shm_update (shm_update 0 ⟨some ⟨0, ⟨5, (42 : Nat)⟩, 0⟩, 3⟩ ⟨7, 99⟩).1
           (shm_update 0 ⟨some ⟨0, ⟨5, (42 : Nat)⟩, 0⟩, 3⟩ ⟨7, 99⟩).2.1 ⟨8, 101⟩).1 ∧
      (shm_update (shm_update 0 ⟨some ⟨0, ⟨5, (42 : Nat)⟩, 0⟩, 3⟩ ⟨7, 99⟩).1
          (shm_update 0 ⟨some ⟨0, ⟨5, (42 : Nat)⟩, 0⟩, 3⟩ ⟨7, 99⟩).2.1 ⟨8, 101⟩).1 ≠
        (shm_update 0 ⟨some ⟨0, ⟨5, (42 : Nat)⟩, 0⟩, 3⟩ ⟨7, 99⟩).1) :=
  shm_update_consecutive_ticks 0 ⟨some ⟨0, ⟨5, (42 : Nat)⟩, 0⟩, 3⟩ ⟨7, 99⟩ ⟨8, 101⟩ _ rfl

/-- C8: when `recreate_segment` yields a handle but the attach fails (the
platform failure sentinel), `shm_acquire` sets the context's region to
null, leaves the handle field unwritten, and returns false. -/
theorem shm_acquire_attach_failed {α : Type} (p : Platform) (s e0 : Nat)
    (ctx : gps_context_t α)
    (hres : (recreate_segment p s e0).result ≠ -1) :
    shm_acquire p s (none : Option (shmexport_t α)) ctx e0 =
      ({ ctx with shmexport := none }, false) := by
  simp [shm_acquire, hres]

/-- C8 witness: attach failure after a successful segment creation at a
concrete platform. -/
theorem shm_acquire_attach_failed_witness :
    shm_acquire ⟨some 7, 0, none, 0, none, 0, true, 0, none, 0⟩ 16
        (none : Option (shmexport_t Nat)) ⟨none, 3⟩ 5 =
      ({ shmexport := none, shmid := 3 }, false) :=
  shm_acquire_attach_failed _ 16 5 ⟨none, 3⟩ (by decide)

/-- C9: on a context whose region is null, `shm_release` performs no
operation and changes no state, and `shm_update` is likewise a no-op. -/
theorem null_region_noop {α : Type} (tick : Nat) (ctx : gps_context_t α)
    (d : gps_data_t α) (h : ctx.shmexport = none) :
    shm_release ctx = (ctx, []) ∧ shm_update tick ctx d = (tick, ctx, []) := by
  constructor
  · simp [shm_release, h]
  · simp [shm_update, h]

/-- C9 witness: release and publish on a concrete null-region context. -/
theorem null_region_noop_witness :
    shm_release (⟨none, 3⟩ : gps_context_t Nat) = (⟨none, 3⟩, []) ∧
    shm_update 5 (⟨none, 3⟩ : gps_context_t Nat) ⟨7, 99⟩ = (5, ⟨none, 3⟩, []) :=
  null_region_noop 5 ⟨none, 3⟩ ⟨7, 99⟩ rfl

/-- C10: `shm_release` on a context whose region is non-null leaves the
region pointer and the handle field unchanged while performing the
destruction-mark and the detach, so a second release repeats exactly the
same two operations. -/
theorem shm_release_leaves_context {α : Type} (ctx : gps_context_t α)
    (shared : shmexport_t α) (h : ctx.shmexport = some shared) :
    shm_release ctx = (ctx, [.rmidMark ctx.shmid, .detach]) ∧
    shm_release (shm_release ctx).1 = (ctx, [.rmidMark ctx.shmid, .detach]) := by
  constructor <;> simp [shm_release, h]

/-- C10 witness: double release on a concrete non-null context. -/
theorem shm_release_leaves_context_witness :
    shm_release (⟨some ⟨0, ⟨5, (42 : Nat)⟩, 0⟩, 3⟩ : gps_context_t Nat) =
      (⟨some ⟨0, ⟨5, 42⟩, 0⟩, 3⟩, [.rmidMark 3, .detach]) ∧
    shm_release (shm_release
        (⟨some ⟨0, ⟨5, (42 : Nat)⟩, 0⟩, 3⟩ : gps_context_t Nat)).1 =
      (⟨some ⟨0, ⟨5, 42⟩, 0⟩, 3⟩, [.rmidMark 3, .detach]) :=
  shm_release_leaves_context ⟨some ⟨0, ⟨5, (42 : Nat)⟩, 0⟩, 3⟩ _ rfl

end Shmexport
